import Mathlib

/-!
Verification of the Launchpad Pro MK3 control-surface core
(`libs/surfaces/launchpad_pro/lppro.cc`): SysEx codec, per-layout
coordinate tables, pad registry, and device-mode transitions, embedded
shallowly as executable Lean definitions.
-/

namespace LaunchPadPro

/-- The fixed vendor/product SysEx header
`{ 0xf0, 0x00, 0x20, 0x29, 0x2, 0xe }` (lppro.cc line 74). -/
def sysex_header : List Nat := [0xf0, 0x00, 0x20, 0x29, 0x02, 0x0e]

/-- The device layout enumeration, constructors named as in the source. -/
inductive Layout where
  | SessionLayout | Fader | ChordLayout | CustomLayout | NoteLayout | Scale
  | SequencerSettings | SequencerSteps | SequencerVelocity
  | SequencerPatternSettings | SequencerProbability | SequencerMutation
  | SequencerMicroStep | SequencerProjects | SequencerPatterns
  | SequencerTempo | SequencerSwing | ProgrammerLayout | Settings
  | CustomSettings
  deriving DecidableEq, Repr

/-- `LaunchPadPro::AllLayouts` (lppro.cc lines 84-88): the enumeration
order used to decode inbound layout indices. -/
def AllLayouts : List Layout :=
  [.SessionLayout, .Fader, .ChordLayout, .CustomLayout, .NoteLayout, .Scale,
   .SequencerSettings, .SequencerSteps, .SequencerVelocity,
   .SequencerPatternSettings, .SequencerProbability, .SequencerMutation,
   .SequencerMicroStep, .SequencerProjects, .SequencerPatterns,
   .SequencerTempo, .SequencerSwing, .ProgrammerLayout, .Settings,
   .CustomSettings]

/-- The `maps` array of `build_layout_maps` (lppro.cc lines 702-787).
Only the Session table is compiled in; the remaining layouts' tables are
inside an `#if 0` block in the source.  `maps[layout][row][col]` is the
hardware note number of that grid position. -/
def maps : List (List (List Nat)) :=
  [ [ [0x51, 0x52, 0x53, 0x54, 0x55, 0x56, 0x57, 0x58],
      [0x47, 0x48, 0x49, 0x4a, 0x4b, 0x4c, 0x4d, 0x4e],
      [0x3d, 0x3e, 0x3f, 0x40, 0x41, 0x42, 0x43, 0x44],
      [0x33, 0x34, 0x35, 0x36, 0x37, 0x38, 0x39, 0x3a],
      [0x29, 0x2a, 0x2b, 0x2c, 0x2d, 0x2e, 0x2f, 0x30],
      [0x1f, 0x20, 0x21, 0x22, 0x23, 0x24, 0x25, 0x26],
      [0x15, 0x16, 0x17, 0x18, 0x19, 0x1a, 0x1b, 0x1c],
      [0xb,  0xc,  0xe,  0xd,  0xf,  0x10, 0x11, 0x12] ] ]

/-- `sizeof (maps) / sizeof (maps[0])` inside `build_layout_maps`. -/
def num_layouts : Nat := maps.length

/-- `LaunchPadPro::note_xy_index` (lppro.cc lines 816-820):
`(layout * 127) + note`. -/
def note_xy_index (layout note : Nat) : Nat := layout * 127 + note

/-- `LaunchPadPro::xy_note_index` (lppro.cc lines 822-826):
`(layout * 64) + (row * 8) + col`. -/
def xy_note_index (layout col row : Nat) : Nat := layout * 64 + row * 8 + col

/-- First pass of `build_layout_maps` (lppro.cc lines 792-801): resize the
forward table to `num_layouts * 64` (value-initialised to 0) and write
`maps[layout][row][col]` at `xy_note_index (layout, col, row)`. -/
def layout_xy_note_map : List Nat :=
  (List.range num_layouts).foldl (fun acc layout =>
    (List.range 8).foldl (fun acc row =>
      (List.range 8).foldl (fun acc col =>
        acc.set (xy_note_index layout col row)
          (((maps.getD layout []).getD row []).getD col 0))
        acc)
      acc)
    (List.replicate (num_layouts * 64) 0)

/-- Second pass of `build_layout_maps` (lppro.cc lines 803-813): resize the
inverse table to `128 * num_layouts` (value-initialised to 0) and, for each
populated forward entry `note`, write `row*8 + col` at
`note_xy_index (layout, note)`. -/
def layout_note_xy_map : List Nat :=
  (List.range num_layouts).foldl (fun acc layout =>
    (List.range 8).foldl (fun acc row =>
      (List.range 8).foldl (fun acc col =>
        let note := layout_xy_note_map.getD (xy_note_index layout col row) 0
        acc.set (note_xy_index layout note) (row * 8 + col))
        acc)
      acc)
    (List.replicate (128 * num_layouts) 0)

/-- `LaunchPadPro::DeviceMode`: the three device operating modes. -/
inductive DeviceMode where
  | Standalone | DAW | Programmer
  deriving DecidableEq, Repr

/-- One observable effect of a mode transition: a `write` of a SysEx
message on the standard port, or a `g_usleep` delay in microseconds. -/
inductive MidiAction where
  | write (msg : List Nat)
  | usleep (usec : Nat)
  deriving DecidableEq, Repr

/-- `LaunchPadPro::set_device_mode` (lppro.cc lines 475-521): builds each
message by successive `push_back`s onto the header and returns the exact
sequence of writes and sleeps the switch statement performs. -/
def set_device_mode (m : DeviceMode) : List MidiAction :=
  match m with
  | .Standalone =>
      let live_or_programmer := sysex_header ++ [0x0e] ++ [0x00] ++ [0xf7]
      let standalone_or_daw := sysex_header ++ [0x10] ++ [0x00] ++ [0xf7]
      [.write live_or_programmer, .usleep 100000, .write standalone_or_daw]
  | .DAW =>
      let standalone_or_daw := sysex_header ++ [0x10] ++ [0x01] ++ [0xf7]
      [.write standalone_or_daw]
  | .Programmer =>
      let live_or_programmer := sysex_header ++ [0x0e] ++ [0x01] ++ [0xf7]
      [.write live_or_programmer]

/-- A `std::cerr` log line of `handle_midi_sysex`: either the success-path
"Current layout = ..." report of a layout change, or the rejection of an
illegal layout index. -/
inductive LogMsg where
  | currentLayout (l : Layout)
  | illegalLayoutIndex (idx : Nat)
  deriving DecidableEq, Repr

/-- `LaunchPadPro::handle_midi_sysex` (lppro.cc lines 523-552).  State is
`_current_layout`; the returned log models the handler's two `std::cerr`
outputs.  The source returns early when `sz < sysex_header.size() + 1`,
switches on the first post-header byte (only case `0x0`, layout info, does
anything), returns early again when `sz < sysex_header.size() + 2`, and
assigns `_current_layout = AllLayouts[raw_bytes[1]]` only when
`raw_bytes[1] < num_layouts` (num_layouts = 20), logging and ignoring an
out-of-range index. -/
def handle_midi_sysex (raw : List Nat) (cur : Layout) : Layout × List LogMsg :=
  if raw.length < sysex_header.length + 1 then (cur, [])
  else if raw.getD sysex_header.length 0 = 0x0 then
    if raw.length < sysex_header.length + 2 then (cur, [])
    else
      let idx := raw.getD (sysex_header.length + 1) 0
      if h : idx < AllLayouts.length then
        (AllLayouts.get ⟨idx, h⟩, [.currentLayout (AllLayouts.get ⟨idx, h⟩)])
      else (cur, [.illegalLayoutIndex idx])
  else (cur, [])

/-- `LaunchPadPro::scroll_text` (lppro.cc lines 675-697).  `txt` is the
byte sequence of the string and `speed` models the `float` argument as a
rational.  The first message pushes `0x32`, the color, the loop flag, then
`txt[i] & 0xf7` for every text byte, then the `0xf7` terminator.  When
`speed != 0` the same buffer is reused: byte `header+3` is overwritten
with `(byte) floor (1 + speed * 6)`, byte `header+4` with `0xf7`, the
buffer is resized to `header+5` bytes and written again. -/
def scroll_text (txt : List Nat) (color : Nat) (loop : Bool) (speed : ℚ) :
    List (List Nat) :=
  let msg := sysex_header ++ [0x32] ++ [color] ++ [if loop then 1 else 0]
      ++ txt.map (fun c => c &&& 0xf7) ++ [0xf7]
  if speed ≠ 0 then
    let msg2 := ((msg.set (sysex_header.length + 3)
        (Int.toNat (Int.floor (1 + speed * 6)))).set
        (sysex_header.length + 4) 0xf7).take (sysex_header.length + 5)
    [msg, msg2]
  else [msg]

/-- Color modes of a pad.  Modelled from the spec: the `Pad` class is
declared in the surface's header file, which is not part of this source;
the spec fixes the modes `{Static, Flashing, Pulsing}` and the source
refers to `Pad::Static`. -/
inductive ColorMode where
  | Static | Flashing | Pulsing
  deriving DecidableEq, Repr

/-- Modelled from the spec: the `Pad` record of the missing header —
an id, an optional grid position `(row, col)` (edge pads have none), a
color `0..127` and a color mode.  `build_pad_map` uses the constructor
forms `Pad (id)` for edge pads and `Pad (id, row, col)` for grid pads. -/
structure Pad where
  id : Nat
  pos : Option (Nat × Nat)
  color : Nat := 0
  mode : ColorMode := .Static
  deriving DecidableEq, Repr

/-- The pad registry: the in-memory association of pad id to `Pad`,
in insertion order. -/
abbrev PadMap := List (Nat × Pad)

/-- Modelled from the spec: the numeric values of the `PadID` enumeration
live in the missing header; the spec fixes only that the 41 edge/function
pads are distinct identifiers disjoint from the grid ids
`11 + row*10 + col`.  The values below follow the device's controller
numbering, one per name of `all_pad_ids` (lppro.cc lines 76-82) in order:
`Shift`, then `Left..Projects`, `Patterns..PrintToClip`,
`StopClip..RecordArm`, `CaptureMIDI..Up`, `Lower1..Lower8`. -/
def all_pad_ids : List Nat :=
  [90,
   91, 92, 93, 94, 95, 96, 97, 98,
   19, 29, 39, 49, 59, 69, 79, 89,
   10, 20, 30, 40, 50, 60, 70, 80,
   1, 2, 3, 4, 5, 6, 7, 8,
   101, 102, 103, 104, 105, 106, 107, 108]

/-- One `pad_map.insert` with the duplicate check of `build_pad_map`
(lppro.cc lines 334 and 389): when the insertion does not take place
because the key exists, the source calls `abort()`, modelled as `none`. -/
def pad_insert (m : PadMap) (pid : Nat) (p : Pad) : Option PadMap :=
  if m.any (fun q => q.1 == pid) then none else some (m ++ [(pid, p)])

/-- `LaunchPadPro::build_pad_map` (lppro.cc lines 331-395): insert the 41
edge pads in `all_pad_ids` order, then the 8×8 grid pads with id
`(11 + row*10) + col`, aborting (`none`) on any duplicate id. -/
def build_pad_map : Option PadMap :=
  (all_pad_ids.foldlM
    (fun m pid => pad_insert m pid ⟨pid, none, 0, .Static⟩) []) >>= fun m =>
  (List.range 8).foldlM (fun m row =>
    (List.range 8).foldlM (fun m col =>
      let pid := 11 + row * 10 + col
      pad_insert m pid ⟨pid, some (row, col), 0, .Static⟩) m) m

/-- `LaunchPadPro::all_pads_off` (lppro.cc lines 429-442): build the bulk
clear message — header, `0x3`, then `0x0, n, 13` for each `n` from 1 to
31, then `0xf7` — and write it.  The body reads and mutates no pad
record, so the registry passes through unchanged. -/
def all_pads_off (pads : PadMap) : PadMap × List Nat :=
  let msg := sysex_header ++ [0x3]
  let msg := (List.range' 1 31).foldl (fun acc n => acc ++ [0x0, n, 13]) msg
  (pads, msg ++ [0xf7])

/-- Forward lookup `layout_xy_note_map[xy_note_index (layout, col, row)]`:
the note number stored for a grid position (as read at lppro.cc line 808). -/
def note_of (layout col row : Nat) : Nat :=
  layout_xy_note_map.getD (xy_note_index layout col row) 0

/-- `LaunchPadPro::note_to_xy` (lppro.cc lines 828-833): read the inverse
table at `note_xy_index (layout, note)` and return `(coord % 8, coord / 8)`,
i.e. `(col, row)`.  `layout` stands for the `(int) _current_layout` cast;
the Session layout is index 0 (first entry of `AllLayouts` and of `maps`). -/
def note_to_xy (layout note : Nat) : Nat × Nat :=
  let coord := layout_note_xy_map.getD (note_xy_index layout note) 0
  (coord % 8, coord / 8)

/-- `LaunchPadPro::handle_midi_note_off_message` (lppro.cc lines 574-579):
apart from a conditional debug trace the body is empty — no state change
and no unconditional output, whatever the velocity.  The result is the
coordinate printed to `std::cerr`, of which this handler prints none. -/
def handle_midi_note_off (_note _velocity : Nat) : Option (Nat × Nat) := none

/-- `LaunchPadPro::handle_midi_note_on_message` (lppro.cc lines 561-572):
a velocity of 0 is forwarded to the note-off handler with the same event;
otherwise the coordinate of the note under the current layout is resolved
via `note_to_xy` and printed to `std::cerr`. -/
def handle_midi_note_on (layout note velocity : Nat) : Option (Nat × Nat) :=
  if velocity = 0 then handle_midi_note_off note velocity
  else some (note_to_xy layout note)

end LaunchPadPro

namespace LaunchPadPro

set_option maxRecDepth 100000

/-- C1: For every layout with a compiled-in table (Session, index 0) and
every populated grid position `(col,row)` with `col,row < 8`, looking up
the note number and converting it back yields the same position; in
particular note `0x33` in the Session layout maps back to `(0, 3)`. -/
theorem note_roundtrip :
    (∀ col < 8, ∀ row < 8,
      note_to_xy 0 (note_of 0 col row) = (col, row)) ∧
    note_to_xy 0 0x33 = (0, 3) := by
  decide

/-- C2: The forward table index is `layout*64 + row*8 + col` as the spec
states, but the inverse table index is computed as `layout*127 + note`,
not the spec's `layout*128 + note`: at layout 1, note 0 the code yields
index 127, not 128, and collides with the index of layout 0, note 127 —
even though the inverse table itself is allocated with 128 slots per
layout, matching the spec's scheme. -/
theorem note_xy_index_eval :
    (∀ layout col row : Nat,
      xy_note_index layout col row = layout * 64 + row * 8 + col) ∧
    note_xy_index 1 0 = 127 ∧
    ¬ note_xy_index 1 0 = 1 * 128 + 0 ∧
    note_xy_index 0 127 = note_xy_index 1 0 ∧
    layout_note_xy_map.length = 128 * num_layouts := by
  refine ⟨fun _ _ _ => rfl, by decide, by decide, by decide, by decide⟩

/-- C3 counterexample: note 0 is not populated anywhere in the Session
grid table, yet `note_to_xy` returns the plain coordinate `(0,0)` for it —
the same value it returns for the genuinely populated top-left pad — so
the lookup has no explicit "no coordinate" sentinel and does silently
return `(0,0)`. -/
theorem note_to_xy_no_sentinel_cex :
    (((maps.getD 0 []).any fun r => r.contains 0) = false) ∧
    note_to_xy 0 0 = (0, 0) ∧
    note_to_xy 0 (note_of 0 0 0) = (0, 0) := by
  decide

/-- C3 amended: for every note number 0..127 that is not populated in the
Session layout's grid table, `note_to_xy` returns the zero-initialised
inverse-table entry, which decodes to the coordinate `(0,0)` — there is no
distinguished absent sentinel. -/
theorem note_to_xy_unpopulated :
    ∀ note < 128,
      (((maps.getD 0 []).any fun r => r.contains note) = false) →
      note_to_xy 0 note = (0, 0) := by
  decide

/-- C3 amended witness: note 0 is unpopulated and maps to `(0,0)`. -/
theorem note_to_xy_unpopulated_witness :
    note_to_xy 0 0 = (0, 0) :=
  note_to_xy_unpopulated 0 (by decide) (by decide)

/-- C4: `set_device_mode Standalone` performs exactly, in order: a write
of the return-to-live message `header ++ [0x0E, 0x00] ++ [0xF7]`, a delay
of 100000 µs (at least 100 ms), and a write of the disable-DAW-mode
message `header ++ [0x10, 0x00] ++ [0xF7]` — and nothing else. -/
theorem set_device_mode_standalone :
    set_device_mode .Standalone =
      [.write (sysex_header ++ [0x0e, 0x00] ++ [0xf7]),
       .usleep 100000,
       .write (sysex_header ++ [0x10, 0x00] ++ [0xf7])] ∧
    100 * 1000 ≤ 100000 :=
  ⟨rfl, by decide⟩

/-- C5: a well-formed layout-info response (header, command byte `0x00`,
an index byte) with index below the 20 enumerated layouts sets the current
layout to `AllLayouts[index]` and produces the layout-changed
notification (the handler's success-path log); an out-of-range index is
logged and ignored with no state change; in particular index 2 selects
`ChordLayout`, the 3rd enumerated layout. -/
theorem handle_sysex_layout_info :
    ∀ (idx : Nat) (rest : List Nat) (cur : Layout),
      (∀ h : idx < AllLayouts.length,
        handle_midi_sysex (sysex_header ++ 0x00 :: idx :: rest) cur =
          (AllLayouts.get ⟨idx, h⟩,
           [.currentLayout (AllLayouts.get ⟨idx, h⟩)])) ∧
      (AllLayouts.length ≤ idx →
        handle_midi_sysex (sysex_header ++ 0x00 :: idx :: rest) cur =
          (cur, [.illegalLayoutIndex idx])) ∧
      handle_midi_sysex (sysex_header ++ [0x00, 0x02, 0xf7]) cur =
        (.ChordLayout, [.currentLayout .ChordLayout]) ∧
      AllLayouts.length = 20 := by
  intro idx rest cur
  have hlen : (sysex_header ++ 0x00 :: idx :: rest).length = rest.length + 8 := by
    simp [sysex_header]
  have hcmd : (sysex_header ++ 0x00 :: idx :: rest).getD sysex_header.length 0
      = 0x0 := rfl
  have hidx : (sysex_header ++ 0x00 :: idx :: rest).getD (sysex_header.length + 1) 0
      = idx := rfl
  refine ⟨?_, ?_, rfl, rfl⟩
  · intro h
    unfold handle_midi_sysex
    rw [hlen, if_neg (by simp [sysex_header]), if_pos hcmd,
        if_neg (by simp [sysex_header])]
    simp only [hidx]
    rw [dif_pos h]
  · intro h
    unfold handle_midi_sysex
    rw [hlen, if_neg (by simp [sysex_header]), if_pos hcmd,
        if_neg (by simp [sysex_header])]
    simp only [hidx]
    rw [dif_neg (by omega)]

/-- C5 witness: the inbound message `F0 00 20 29 02 0E 00 02 F7`
(index 2) selects `ChordLayout` and logs the change. -/
theorem handle_sysex_layout_info_witness :
    handle_midi_sysex (sysex_header ++ 0x00 :: 0x02 :: [0xf7]) .SessionLayout =
      (.ChordLayout, [.currentLayout .ChordLayout]) :=
  (handle_sysex_layout_info 0x02 [0xf7] .SessionLayout).1 (by decide)

/-- C9: every inbound SysEx shorter than the 6-byte header plus one
command byte — any length 0..6, length 5 in particular — trips the
truncation guard (`raw.length < sysex_header.length + 1`) and is
discarded with the current layout unchanged and nothing logged; the
handler never touches the pad registry. -/
theorem handle_sysex_truncated :
    ∀ (raw : List Nat) (cur : Layout), raw.length < 7 →
      raw.length < sysex_header.length + 1 ∧
      handle_midi_sysex raw cur = (cur, []) := by
  intro raw cur h
  have hc : raw.length < sysex_header.length + 1 := h
  exact ⟨hc, by unfold handle_midi_sysex; rw [if_pos hc]⟩

/-- C9 witness: the 5-byte SysEx `F0 00 20 29 02` is discarded with no
state change. -/
theorem handle_sysex_truncated_witness :
    [0xf0, 0x00, 0x20, 0x29, 0x02].length < sysex_header.length + 1 ∧
    handle_midi_sysex [0xf0, 0x00, 0x20, 0x29, 0x02] .SessionLayout =
      (.SessionLayout, []) :=
  handle_sysex_truncated [0xf0, 0x00, 0x20, 0x29, 0x02] .SessionLayout
    (by decide)

/-- C6: evaluation at the failing input — the text byte `0x48` ('H') is
emitted as `0x48 & 0xF7 = 0x40`, not as the 7-bit-masked `0x48 & 0x7F =
0x48` the claim states: the source masks each text byte with `0xF7` (the
SysEx terminator value) instead of `0x7F`.  The speed path does match the
claim: with `speed = 2` a second message carrying
`floor (1 + 2*6) = 13` is emitted. -/
theorem scroll_text_mask_eval :
    scroll_text [0x48] 0x03 false 0 =
      [sysex_header ++ [0x32, 0x03, 0x00, 0x40, 0xf7]] ∧
    (0x48 &&& 0xf7 : Nat) = 0x40 ∧
    (0x48 &&& 0x7f : Nat) = 0x48 ∧
    (0x40 : Nat) ≠ 0x48 ∧
    scroll_text [0x48, 0x49] 0x03 false 2 =
      [sysex_header ++ [0x32, 0x03, 0x00, 0x40, 0x41, 0xf7],
       sysex_header ++ [0x32, 0x03, 0x00, 13, 0xf7]] := by
  refine ⟨?_, by decide, by decide, by decide, ?_⟩
  · norm_num [scroll_text, sysex_header]
    decide
  · norm_num [scroll_text, sysex_header]
    decide

/-- C7: `build_pad_map` succeeds (no duplicate-id `abort()`) and the
resulting registry has exactly `64 + 5*8 + 1 = 105` entries with pairwise
distinct pad ids; a duplicate registration is the fatal `none`, as the
repeated insertion of `Shift` (id 90) shows. -/
theorem build_pad_map_card :
    build_pad_map.isSome = true ∧
    (build_pad_map.getD []).length = 64 + 5 * 8 + 1 ∧
    ((build_pad_map.getD []).map Prod.fst).Nodup ∧
    pad_insert [(90, ⟨90, none, 0, .Static⟩)] 90 ⟨90, none, 0, .Static⟩
      = none := by
  refine ⟨by decide, by decide, by decide, by decide⟩

/-- C8: dispatching a note-on with velocity 0 produces exactly the
outcome of the note-off handler for the same note, for every layout and
every velocity given to the note-off handler; neither touches any state
in this source. -/
theorem note_on_zero_velocity_aliasing :
    ∀ (layout note vel : Nat),
      handle_midi_note_on layout note 0 = handle_midi_note_off note vel := by
  intro layout note vel
  rfl

/-- C10: `all_pads_off` returns, for every prior pad registry, the
identical fixed byte sequence — header, `0x03`, the triples `(0x00, n,
13)` for `n` from 1 to 31, `0xF7` — and passes the registry through
unchanged (no pad's color or mode is mutated). -/
theorem all_pads_off_fixed :
    ∀ pads : PadMap,
      all_pads_off pads =
        (pads,
         sysex_header ++ [0x03] ++
           ((List.range' 1 31).flatMap fun n => [0x00, n, 13]) ++ [0xf7]) := by
  intro pads
  rfl

end LaunchPadPro
